import Mathlib

/-
Verification development for the NgxBaseFetch cross-thread fetch-buffer bridge
(src/ngx_base_fetch.h).  The header declares the class and gives inline bodies
for Detach and set_ipro_lookup; the remaining method bodies live in the
corresponding .cc file, which is not part of the source tree here, so those
operations are modelled from the specification and from the header's own
doc comments, and are marked as such below.

Bytes are modelled as natural numbers, the GoogleString buffer as a list of
bytes, and the pthread-mutex-guarded object as a record on which every
operation is an atomic state transformer (the lock serialises all operations,
so an interleaved execution is a sequence of atomic operations).
-/

set_option maxRecDepth 8192
set_option maxHeartbeats 1000000

namespace NgxPagespeed

/-- Caching-header preservation policy, fixed at construction
(spec: none, cache-control-only, all). -/
inductive PreserveCachingHeaders
  | kDontPreserveHeaders
  | kPreserveOnlyCacheControl
  | kPreserveAllCachingHeaders
  deriving DecidableEq, Repr

/-- Return statuses of CollectAccumulatedWrites / CopyBufferToNginx
(the ngx_int_t values NGX_OK, NGX_AGAIN, NGX_ERROR used by the header). -/
inductive NgxStatus
  | NGX_OK
  | NGX_AGAIN
  | NGX_ERROR
  deriving DecidableEq, Repr

/-- The mutable state of one NgxBaseFetch object: the fields declared at lines
133-147 of src/ngx_base_fetch.h that the claims are about.  request_,
server_context_ and the captured headers play no role in any claim and are
omitted; mutex_ is represented by every operation being atomic. -/
structure NgxBaseFetch where
  buffer_ : List Nat
  done_called_ : Bool
  last_buf_sent_ : Bool
  references_ : Int
  ipro_lookup_ : Bool
  preserve_caching_headers_ : PreserveCachingHeaders
  detached_ : Bool
  deriving DecidableEq, Repr

namespace NgxBaseFetch

/-- Constructor state: the header comment at lines 138-142 says references_
starts at two (one credit per owner); the flags start false and the buffer
empty; preserve_caching_headers_ is a constructor argument. -/
def construct (pch : PreserveCachingHeaders) : NgxBaseFetch :=
  { buffer_ := []
    done_called_ := false
    last_buf_sent_ := false
    references_ := 2
    ipro_lookup_ := false
    preserve_caching_headers_ := pch
    detached_ := false }

/-- From the source header, line 93 (inline body):
set_ipro_lookup(bool x) assigns x to ipro_lookup_. -/
def set_ipro_lookup (f : NgxBaseFetch) (x : Bool) : NgxBaseFetch :=
  { f with ipro_lookup_ := x }

/-- Modelled from the spec: the body of DecrefAndDeleteIfUnreferenced is in the
missing ngx_base_fetch.cc; the header comment (lines 127-129) says it
decrements the reference count and, if it is zero, the object deletes itself.
Returns the decremented state together with whether self-deletion fired. -/
def DecrefAndDeleteIfUnreferenced (f : NgxBaseFetch) : NgxBaseFetch × Bool :=
  let f' := { f with references_ := f.references_ - 1 }
  (f', f'.references_ == 0)

/-- Modelled from the spec: DecrementRefCount (header line 88) is the public
wrapper around DecrefAndDeleteIfUnreferenced, callable from either thread. -/
def DecrementRefCount (f : NgxBaseFetch) : NgxBaseFetch × Bool :=
  DecrefAndDeleteIfUnreferenced f

/-- Modelled from the spec: IncrementRefCount (header line 91) adds one
reference-count credit under the lock. -/
def IncrementRefCount (f : NgxBaseFetch) : NgxBaseFetch :=
  { f with references_ := f.references_ + 1 }

/-- From the source header, line 99 (inline body):
Detach() sets detached_ to true and then decrements the refcount. -/
def Detach (f : NgxBaseFetch) : NgxBaseFetch × Bool :=
  DecrementRefCount { f with detached_ := true }

/-- Modelled from the spec: HandleWrite (declared at header line 106; body in
the missing .cc) appends the written bytes to buffer_ under the lock. -/
def HandleWrite (f : NgxBaseFetch) (sp : List Nat) : NgxBaseFetch :=
  { f with buffer_ := f.buffer_ ++ sp }

/-- Modelled from the spec: CopyBufferToNginx (declared at header lines
115-122; body in the missing .cc).  Lock must be held.  Allocates nginx
buffers and copies buffer_ into them, clearing buffer_; on allocation failure
it returns NGX_ERROR before mutating anything.  The final segment is marked
(last_buf) when done_called_ is set and last_buf_sent_ is not yet set, and
last_buf_sent_ is recorded.  Status is NGX_OK once Done() has been called,
NGX_AGAIN otherwise.  The nginx chain is modelled as the emitted byte list
plus the last_buf flag. -/
def CopyBufferToNginx (f : NgxBaseFetch) (allocOk : Bool) :
    NgxBaseFetch × List Nat × Bool × NgxStatus :=
  match allocOk with
  | false => (f, [], false, NgxStatus.NGX_ERROR)
  | true =>
    let data := f.buffer_
    let final := f.done_called_ && !f.last_buf_sent_
    let f' := { f with buffer_ := [], last_buf_sent_ := f.last_buf_sent_ || final }
    let status := if f.done_called_ then NgxStatus.NGX_OK else NgxStatus.NGX_AGAIN
    (f', data, final, status)

/-- Modelled from the spec: CollectAccumulatedWrites (header lines 71-79; body
in the missing .cc) takes the lock, runs CopyBufferToNginx to drain the
buffer into an output chain, and unlocks.  allocOk abstracts whether nginx
buffer allocation succeeds while the output chain is built. -/
def CollectAccumulatedWrites (f : NgxBaseFetch) (allocOk : Bool) :
    NgxBaseFetch × List Nat × Bool × NgxStatus :=
  CopyBufferToNginx f allocOk

end NgxBaseFetch

/-- One whole-system state: the bridge object (frozen once alive is false, at
which point the C++ object has been deleted), the queue of in-flight
notification events written to the pipe (each a char event type, as in
RequestCollection(char type), header line 113), plus ghost observation fields:
how many deletions fired, all bytes ever passed to HandleWrite, all bytes ever
returned by CollectAccumulatedWrites, and how many collection calls reported
their output final. -/
structure Sys where
  alive : Bool
  bf : NgxBaseFetch
  inflight : List Char
  deletions : Nat
  written : List Nat
  collectedAll : List Nat
  finalCount : Nat
  deriving DecidableEq, Repr

/-- Modelled from the spec: RequestCollection(type) (header lines 111-113)
takes one reference-count credit on the bridge (paired IncrementRefCount) and
enqueues an event carrying the bridge and the event type on the pipe. -/
def RequestCollection (s : Sys) (t : Char) : Sys :=
  { s with bf := s.bf.IncrementRefCount, inflight := s.inflight ++ [t] }

/-- Apply one DecrementRefCount to the system: if the count reaches zero the
object self-deletes (alive becomes false) and the deletion is recorded. -/
def applyDecref (s : Sys) : Sys :=
  let r := s.bf.DecrefAndDeleteIfUnreferenced
  { s with bf := r.1
           alive := s.alive && !r.2
           deletions := s.deletions + (if r.2 then 1 else 0) }

/-- The atomic operations either side can perform on the bridge. -/
inductive Act
  | write (data : List Nat)
  | flush
  | done (success : Bool)
  | collect (allocOk : Bool)
  | detach
  | deliver
  deriving DecidableEq, Repr

/-- One atomic step of the system.  write/flush/done are the producer-side
operations; collect and detach are the consumer side; deliver is the nginx
side reading one event off the pipe (ReadCallback, header line 69), which per
the spec must call DecrementRefCount exactly once per delivered event, whether
or not it acts on the payload (any collection it triggers is a separate
collect step).  Modelled from the spec: HandleFlush requests a wakeup event
and moves no data; HandleDone(success) sets done_called_, requests a DONE
wakeup event, and releases the producer-side ownership credit; success is
recorded but does not alter buffering. -/
def step1 (s : Sys) (a : Act) : Sys :=
  if s.alive = true then
    match a with
    | Act.write data =>
        { s with bf := s.bf.HandleWrite data, written := s.written ++ data }
    | Act.flush => RequestCollection s 'F'
    | Act.done _success =>
        applyDecref (RequestCollection
          { s with bf := { s.bf with done_called_ := true } } 'D')
    | Act.collect allocOk =>
        let r := s.bf.CollectAccumulatedWrites allocOk
        { s with bf := r.1
                 collectedAll := s.collectedAll ++ r.2.1
                 finalCount := s.finalCount + (if r.2.2.1 then 1 else 0) }
    | Act.detach =>
        let r := s.bf.Detach
        { s with bf := r.1
                 alive := !r.2
                 deletions := s.deletions + (if r.2 then 1 else 0) }
    | Act.deliver =>
        match s.inflight with
        | [] => s
        | _ :: rest => applyDecref { s with inflight := rest }
  else s

/-- Caller-contract validity of one step, from the spec's producer and
consumer contracts: the object must still be alive; the producer calls
HandleDone exactly once, with writes and flushes before it; the consumer
calls Detach exactly once and issues no collection call after detaching;
an event can be delivered only if one is in flight. -/
def validStep (s : Sys) (a : Act) : Bool :=
  s.alive &&
    match a with
    | Act.write _ => !s.bf.done_called_
    | Act.flush => !s.bf.done_called_
    | Act.done _ => !s.bf.done_called_
    | Act.collect _ => !s.bf.detached_
    | Act.detach => !s.bf.detached_
    | Act.deliver => !s.inflight.isEmpty

/-- A trace is valid from s when each step respects the caller contracts in
the state reached so far. -/
def validTrace (s : Sys) : List Act → Bool
  | [] => true
  | a :: rest => validStep s a && validTrace (step1 s a) rest

/-- Run a trace of atomic operations from a state. -/
def run (s : Sys) (t : List Act) : Sys :=
  t.foldl step1 s

/-- The system state at bridge construction: object alive with its constructor
state, empty pipe, nothing written, collected, finalised or deleted. -/
def initSys (pch : PreserveCachingHeaders) : Sys :=
  { alive := true
    bf := NgxBaseFetch.construct pch
    inflight := []
    deletions := 0
    written := []
    collectedAll := []
    finalCount := 0 }

/-- The bytes passed to HandleWrite along a trace, in order. -/
def traceWrites : List Act → List Nat
  | [] => []
  | Act.write d :: rest => d ++ traceWrites rest
  | Act.flush :: rest => traceWrites rest
  | Act.done _ :: rest => traceWrites rest
  | Act.collect _ :: rest => traceWrites rest
  | Act.detach :: rest => traceWrites rest
  | Act.deliver :: rest => traceWrites rest

/-- The producer's ownership credit: held until HandleDone releases it. -/
def prodCredit (f : NgxBaseFetch) : Int :=
  if f.done_called_ then 0 else 1

/-- The consumer's ownership credit: held until Detach releases it. -/
def consCredit (f : NgxBaseFetch) : Int :=
  if f.detached_ then 0 else 1

/-- The system invariant: the reference count is exactly the two ownership
credits plus one credit per in-flight event while the object is alive, and
zero at deletion, which happens at most once, exactly when alive is lost, and
only once both releases have happened and the pipe is empty; at least one
credit is held while alive; a final segment has been reported exactly when
last_buf_sent_ is set, which requires done_called_; and the bytes returned by
collection calls followed by the bytes still buffered are exactly the bytes
written, in order. -/
def Inv (s : Sys) : Prop :=
  (s.alive = true →
    s.bf.references_ = prodCredit s.bf + consCredit s.bf + s.inflight.length)
  ∧ (s.alive = true → 1 ≤ s.bf.references_)
  ∧ (s.alive = false →
      s.bf.references_ = 0 ∧ s.bf.done_called_ = true ∧ s.bf.detached_ = true
        ∧ s.inflight.length = 0)
  ∧ (s.alive = true ↔ s.deletions = 0)
  ∧ s.deletions ≤ 1
  ∧ (s.bf.last_buf_sent_ = true → s.bf.done_called_ = true)
  ∧ s.finalCount = (if s.bf.last_buf_sent_ then 1 else 0)
  ∧ s.collectedAll ++ s.bf.buffer_ = s.written

lemma Inv_initSys (pch : PreserveCachingHeaders) : Inv (initSys pch) := by
  simp [Inv, initSys, NgxBaseFetch.construct, prodCredit, consCredit]

lemma Inv_step (s : Sys) (a : Act) (hInv : Inv s) (hv : validStep s a = true) :
    Inv (step1 s a) := by
  rcases s with ⟨al, ⟨buf, dc, lbs, refs, ipro, pch, det⟩, infl, dels, wr, col, fc⟩
  cases al with
  | false => simp [validStep] at hv
  | true =>
    obtain ⟨h1, h2, h3, h4, h5, h6, h7, h8⟩ := hInv
    have h1' : refs = (if dc = true then (0 : Int) else 1)
        + (if det = true then (0 : Int) else 1) + infl.length := by
      simpa [prodCredit, consCredit] using h1 rfl
    have h2' : (1 : Int) ≤ refs := h2 rfl
    have h4' : dels = 0 := h4.mp rfl
    have h6' : lbs = true → dc = true := h6
    have h7' : fc = if lbs = true then 1 else 0 := h7
    have h8' : col ++ buf = wr := h8
    clear h1 h2 h3 h4 h5 h6 h7 h8
    subst h4' h8' h7'
    cases a with
    | write data =>
        have hdc : dc = false := by
          simpa [validStep, Bool.not_eq_true'] using hv
        subst hdc
        clear hv
        simp only [Inv, step1, NgxBaseFetch.HandleWrite, prodCredit, consCredit]
        cases det <;> cases lbs <;>
          (refine ⟨?_, ?_, ?_, ?_, ?_, ?_, ?_, ?_⟩ <;>
            simp_all [List.append_assoc, List.length_append] <;> try omega)
    | flush =>
        have hdc : dc = false := by
          simpa [validStep, Bool.not_eq_true'] using hv
        subst hdc
        clear hv
        simp only [Inv, step1, RequestCollection, NgxBaseFetch.IncrementRefCount,
          prodCredit, consCredit]
        cases det <;> cases lbs <;>
          (refine ⟨?_, ?_, ?_, ?_, ?_, ?_, ?_, ?_⟩ <;>
            simp_all [List.append_assoc, List.length_append] <;> try omega)
    | done success =>
        have hdc : dc = false := by
          simpa [validStep, Bool.not_eq_true'] using hv
        subst hdc
        clear hv
        have hne : ¬(refs + 1 - 1 = 0) := by omega
        simp only [Inv, step1, applyDecref, RequestCollection,
          NgxBaseFetch.IncrementRefCount, NgxBaseFetch.DecrefAndDeleteIfUnreferenced,
          prodCredit, consCredit, beq_iff_eq]
        cases det <;> cases lbs <;>
          (refine ⟨?_, ?_, ?_, ?_, ?_, ?_, ?_, ?_⟩ <;>
            simp_all [List.append_assoc, List.length_append] <;> try omega)
    | collect allocOk =>
        have hdet : det = false := by
          simpa [validStep, Bool.not_eq_true'] using hv
        subst hdet
        clear hv
        simp only [Inv, step1, NgxBaseFetch.CollectAccumulatedWrites,
          NgxBaseFetch.CopyBufferToNginx, prodCredit, consCredit]
        cases allocOk <;> cases dc <;> cases lbs <;>
          (refine ⟨?_, ?_, ?_, ?_, ?_, ?_, ?_, ?_⟩ <;>
            simp_all [List.append_assoc, List.length_append] <;> try omega)
    | detach =>
        have hdet : det = false := by
          simpa [validStep, Bool.not_eq_true'] using hv
        subst hdet
        clear hv
        simp only [Inv, step1, NgxBaseFetch.Detach, NgxBaseFetch.DecrementRefCount,
          NgxBaseFetch.DecrefAndDeleteIfUnreferenced, prodCredit, consCredit,
          beq_iff_eq]
        by_cases hz : refs - 1 = 0 <;>
          cases dc <;> cases lbs <;>
            (refine ⟨?_, ?_, ?_, ?_, ?_, ?_, ?_, ?_⟩ <;>
              simp_all [List.append_assoc, List.length_append,
                Nat.one_le_iff_ne_zero, List.length_eq_zero] <;> try omega)
    | deliver =>
        cases infl with
        | nil => simp [validStep] at hv
        | cons e rest =>
            clear hv
            simp only [Inv, step1, applyDecref,
              NgxBaseFetch.DecrefAndDeleteIfUnreferenced, prodCredit, consCredit,
              beq_iff_eq]
            by_cases hz : refs - 1 = 0 <;>
              cases dc <;> cases lbs <;> cases det <;>
                (refine ⟨?_, ?_, ?_, ?_, ?_, ?_, ?_, ?_⟩ <;>
                  simp_all [List.append_assoc, List.length_append,
                    Nat.one_le_iff_ne_zero, List.length_eq_zero] <;> try omega)

lemma run_nil (s : Sys) : run s [] = s := rfl

lemma run_cons (s : Sys) (a : Act) (t : List Act) :
    run s (a :: t) = run (step1 s a) t := rfl

lemma run_append (s : Sys) (t1 t2 : List Act) :
    run s (t1 ++ t2) = run (run s t1) t2 := by
  simp [run, List.foldl_append]

lemma validTrace_append (s : Sys) (t1 t2 : List Act) :
    validTrace s (t1 ++ t2) = (validTrace s t1 && validTrace (run s t1) t2) := by
  induction t1 generalizing s with
  | nil => simp [validTrace, run_nil]
  | cons a t ih => simp [validTrace, run_cons, ih, Bool.and_assoc]

lemma Inv_run (s : Sys) (t : List Act) (hInv : Inv s) (h : validTrace s t = true) :
    Inv (run s t) := by
  induction t generalizing s with
  | nil => simpa [run_nil] using hInv
  | cons a rest ih =>
      simp only [validTrace, Bool.and_eq_true] at h
      exact run_cons s a rest ▸ ih (step1 s a) (Inv_step s a hInv h.1) h.2

lemma Inv_run_initSys (pch : PreserveCachingHeaders) (t : List Act)
    (h : validTrace (initSys pch) t = true) : Inv (run (initSys pch) t) :=
  Inv_run (initSys pch) t (Inv_initSys pch) h

lemma step1_config_frame (s : Sys) (a : Act) :
    (step1 s a).bf.preserve_caching_headers_ = s.bf.preserve_caching_headers_
      ∧ (step1 s a).bf.ipro_lookup_ = s.bf.ipro_lookup_ := by
  rcases s with ⟨al, ⟨buf, dc, lbs, refs, ipro, pch, det⟩, infl, dels, wr, col, fc⟩
  cases a with
  | write d =>
      cases al <;> simp [step1, NgxBaseFetch.HandleWrite]
  | flush =>
      cases al <;> simp [step1, RequestCollection, NgxBaseFetch.IncrementRefCount]
  | done su =>
      cases al <;> simp [step1, applyDecref, RequestCollection,
        NgxBaseFetch.IncrementRefCount, NgxBaseFetch.DecrefAndDeleteIfUnreferenced]
  | collect aok =>
      cases al <;> cases aok <;> simp [step1, NgxBaseFetch.CollectAccumulatedWrites,
        NgxBaseFetch.CopyBufferToNginx]
  | detach =>
      cases al <;> simp [step1, NgxBaseFetch.Detach, NgxBaseFetch.DecrementRefCount,
        NgxBaseFetch.DecrefAndDeleteIfUnreferenced]
  | deliver =>
      cases al <;> cases infl <;> simp [step1, applyDecref,
        NgxBaseFetch.DecrefAndDeleteIfUnreferenced]

lemma step1_lastBufSent_mono (s : Sys) (a : Act)
    (h : s.bf.last_buf_sent_ = true) : (step1 s a).bf.last_buf_sent_ = true := by
  rcases s with ⟨al, ⟨buf, dc, lbs, refs, ipro, pch, det⟩, infl, dels, wr, col, fc⟩
  cases a with
  | write d =>
      cases al <;> simp_all [step1, NgxBaseFetch.HandleWrite]
  | flush =>
      cases al <;> simp_all [step1, RequestCollection, NgxBaseFetch.IncrementRefCount]
  | done su =>
      cases al <;> simp_all [step1, applyDecref, RequestCollection,
        NgxBaseFetch.IncrementRefCount, NgxBaseFetch.DecrefAndDeleteIfUnreferenced]
  | collect aok =>
      cases al <;> cases aok <;> simp_all [step1,
        NgxBaseFetch.CollectAccumulatedWrites, NgxBaseFetch.CopyBufferToNginx]
  | detach =>
      cases al <;> simp_all [step1, NgxBaseFetch.Detach,
        NgxBaseFetch.DecrementRefCount, NgxBaseFetch.DecrefAndDeleteIfUnreferenced]
  | deliver =>
      cases al <;> cases infl <;> simp_all [step1, applyDecref,
        NgxBaseFetch.DecrefAndDeleteIfUnreferenced]

lemma run_lastBufSent_mono (s : Sys) (t : List Act)
    (h : s.bf.last_buf_sent_ = true) : (run s t).bf.last_buf_sent_ = true := by
  induction t generalizing s with
  | nil => simpa [run_nil] using h
  | cons a rest ih =>
      exact run_cons s a rest ▸ ih (step1 s a) (step1_lastBufSent_mono s a h)

lemma run_written (s : Sys) (t : List Act) (h : validTrace s t = true) :
    (run s t).written = s.written ++ traceWrites t := by
  induction t generalizing s with
  | nil => simp [run_nil, traceWrites]
  | cons a rest ih =>
      simp only [validTrace, Bool.and_eq_true] at h
      have hstep : (step1 s a).written
          = s.written ++ (match a with | Act.write d => d | _ => []) := by
        rcases s with ⟨al, ⟨buf, dc, lbs, refs, ipro, pch, det⟩, infl, dels, wr, col, fc⟩
        have hal : al = true := by
          rcases h with ⟨h1, -⟩
          cases al
          · simp [validStep] at h1
          · rfl
        subst hal
        cases a with
        | write d => simp [step1, NgxBaseFetch.HandleWrite]
        | flush => simp [step1, RequestCollection, NgxBaseFetch.IncrementRefCount]
        | done su => simp [step1, applyDecref, RequestCollection,
            NgxBaseFetch.IncrementRefCount, NgxBaseFetch.DecrefAndDeleteIfUnreferenced]
        | collect aok => cases aok <;> simp [step1,
            NgxBaseFetch.CollectAccumulatedWrites, NgxBaseFetch.CopyBufferToNginx]
        | detach => simp [step1, NgxBaseFetch.Detach, NgxBaseFetch.DecrementRefCount,
            NgxBaseFetch.DecrefAndDeleteIfUnreferenced]
        | deliver => cases infl <;> simp [step1, applyDecref,
            NgxBaseFetch.DecrefAndDeleteIfUnreferenced]
      rw [run_cons, ih (step1 s a) h.2, hstep]
      cases a <;> simp [traceWrites, List.append_assoc]

lemma collect_after_done_final (s : Sys) (hInv : Inv s)
    (hdc : s.bf.done_called_ = true) (hv : validStep s (Act.collect true) = true) :
    (step1 s (Act.collect true)).finalCount = 1 := by
  rcases s with ⟨al, ⟨buf, dc, lbs, refs, ipro, pch, det⟩, infl, dels, wr, col, fc⟩
  obtain ⟨-, -, -, -, -, -, h7, -⟩ := hInv
  cases al with
  | false => simp [validStep] at hv
  | true =>
      have hdc' : dc = true := hdc
      subst hdc'
      have h7' : fc = if lbs = true then 1 else 0 := h7
      subst h7'
      cases lbs <;>
        simp [step1, NgxBaseFetch.CollectAccumulatedWrites,
          NgxBaseFetch.CopyBufferToNginx]

lemma validStep_deliver_of_len (s : Sys) (hal : s.alive = true)
    (h : 1 ≤ s.inflight.length) : validStep s Act.deliver = true := by
  rcases s with ⟨al, bf, infl, dels, wr, col, fc⟩
  cases infl with
  | nil => simp at h
  | cons e rest =>
      have hal' : al = true := hal
      subst hal'
      simp [validStep]

lemma write_step_char (s : Sys) (hal : s.alive = true) (d : List Nat) :
    (step1 s (Act.write d)).alive = true
    ∧ (step1 s (Act.write d)).bf.done_called_ = s.bf.done_called_
    ∧ (step1 s (Act.write d)).bf.detached_ = s.bf.detached_
    ∧ (step1 s (Act.write d)).inflight = s.inflight
    ∧ (step1 s (Act.write d)).collectedAll = s.collectedAll
    ∧ (step1 s (Act.write d)).finalCount = s.finalCount
    ∧ (step1 s (Act.write d)).deletions = s.deletions := by
  simp [step1, hal, NgxBaseFetch.HandleWrite]

lemma done_step_char (s : Sys) (hInv : Inv s) (hal : s.alive = true)
    (hdc : s.bf.done_called_ = false) (su : Bool) :
    (step1 s (Act.done su)).alive = true
    ∧ (step1 s (Act.done su)).bf.done_called_ = true
    ∧ (step1 s (Act.done su)).bf.detached_ = s.bf.detached_
    ∧ (step1 s (Act.done su)).inflight.length = s.inflight.length + 1
    ∧ (step1 s (Act.done su)).collectedAll = s.collectedAll
    ∧ (step1 s (Act.done su)).finalCount = s.finalCount
    ∧ (step1 s (Act.done su)).deletions = s.deletions := by
  obtain ⟨-, h2, -, -, -, -, -, -⟩ := hInv
  have h2' : 1 ≤ s.bf.references_ := h2 hal
  have hne : ¬(s.bf.references_ + 1 - 1 = 0) := by omega
  have hne0 : ¬(s.bf.references_ = 0) := by omega
  simp [step1, hal, applyDecref, RequestCollection, NgxBaseFetch.IncrementRefCount,
    NgxBaseFetch.DecrefAndDeleteIfUnreferenced, beq_iff_eq, hne, hne0]

lemma deliver_step_keep (s : Sys) (hInv : Inv s) (hal : s.alive = true)
    (hdc : s.bf.done_called_ = true) (hdet : s.bf.detached_ = true)
    (hlen : 2 ≤ s.inflight.length) :
    (step1 s Act.deliver).alive = true
    ∧ (step1 s Act.deliver).bf.done_called_ = true
    ∧ (step1 s Act.deliver).bf.detached_ = true
    ∧ (step1 s Act.deliver).inflight.length = s.inflight.length - 1
    ∧ (step1 s Act.deliver).collectedAll = s.collectedAll
    ∧ (step1 s Act.deliver).finalCount = s.finalCount
    ∧ (step1 s Act.deliver).deletions = s.deletions := by
  rcases s with ⟨al, ⟨buf, dc, lbs, refs, ipro, pch, det⟩, infl, dels, wr, col, fc⟩
  obtain ⟨h1, -, -, -, -, -, -, -⟩ := hInv
  cases al with
  | false => exact absurd hal (by simp)
  | true =>
      have hdc' : dc = true := hdc
      have hdet' : det = true := hdet
      subst hdc' hdet'
      have h1' : refs = (infl.length : Int) := by
        simpa [prodCredit, consCredit] using h1 rfl
      cases infl with
      | nil => simp at hlen
      | cons e rest =>
          have hlen' : 1 ≤ rest.length := by
            simp only [List.length_cons] at hlen
            omega
          have hne : ¬(refs - 1 = 0) := by
            simp only [List.length_cons] at h1'
            omega
          simp [step1, applyDecref, NgxBaseFetch.DecrefAndDeleteIfUnreferenced,
            beq_iff_eq, hne]

lemma deliver_step_last (s : Sys) (hInv : Inv s) (hal : s.alive = true)
    (hdc : s.bf.done_called_ = true) (hdet : s.bf.detached_ = true)
    (hlen : s.inflight.length = 1) :
    (step1 s Act.deliver).alive = false
    ∧ (step1 s Act.deliver).deletions = s.deletions + 1
    ∧ (step1 s Act.deliver).collectedAll = s.collectedAll
    ∧ (step1 s Act.deliver).finalCount = s.finalCount := by
  rcases s with ⟨al, ⟨buf, dc, lbs, refs, ipro, pch, det⟩, infl, dels, wr, col, fc⟩
  obtain ⟨h1, -, -, -, -, -, -, -⟩ := hInv
  cases al with
  | false => exact absurd hal (by simp)
  | true =>
      have hdc' : dc = true := hdc
      have hdet' : det = true := hdet
      subst hdc' hdet'
      have h1' : refs = (infl.length : Int) := by
        simpa [prodCredit, consCredit] using h1 rfl
      cases infl with
      | nil => simp at hlen
      | cons e rest =>
          have hrest : rest.length = 0 := by
            simp only [List.length_cons] at hlen
            omega
          have hz : refs - 1 = 0 := by
            simp only [List.length_cons] at h1'
            omega
          simp [step1, applyDecref, NgxBaseFetch.DecrefAndDeleteIfUnreferenced,
            beq_iff_eq, hz]

lemma drain_deliver (n : Nat) : ∀ s : Sys, Inv s → s.alive = true →
    s.bf.done_called_ = true → s.bf.detached_ = true →
    s.inflight.length = n + 1 →
    (run s (List.replicate (n + 1) Act.deliver)).alive = false
    ∧ (run s (List.replicate (n + 1) Act.deliver)).deletions = s.deletions + 1
    ∧ (run s (List.replicate (n + 1) Act.deliver)).collectedAll = s.collectedAll
    ∧ (run s (List.replicate (n + 1) Act.deliver)).finalCount = s.finalCount := by
  induction n with
  | zero =>
      intro s hInv hal hdc hdet hlen
      have h := deliver_step_last s hInv hal hdc hdet hlen
      simpa [List.replicate, run, validTrace] using h
  | succ m ih =>
      intro s hInv hal hdc hdet hlen
      have hv : validStep s Act.deliver = true :=
        validStep_deliver_of_len s hal (by omega)
      have hk := deliver_step_keep s hInv hal hdc hdet (by omega)
      have hInv' := Inv_step s Act.deliver hInv hv
      have hrec := ih (step1 s Act.deliver) hInv' hk.1 hk.2.1 hk.2.2.1
        (by rw [hk.2.2.2.1]; omega)
      rw [List.replicate_succ, run_cons]
      refine ⟨hrec.1, ?_, ?_, ?_⟩
      · rw [hrec.2.1, hk.2.2.2.2.2.2]
      · rw [hrec.2.2.1, hk.2.2.2.2.1]
      · rw [hrec.2.2.2, hk.2.2.2.2.2.1]

lemma flush_deliver_net_zero (s : Sys) (hal : s.alive = true) :
    (step1 s Act.flush).bf.references_ = s.bf.references_ + 1
    ∧ (step1 s Act.flush).inflight.length = s.inflight.length + 1
    ∧ (run s [Act.flush, Act.deliver]).bf.references_ = s.bf.references_
    ∧ (run s [Act.flush, Act.deliver]).inflight.length = s.inflight.length := by
  rcases s with ⟨al, ⟨buf, dc, lbs, refs, ipro, pch, det⟩, infl, dels, wr, col, fc⟩
  have hal' : al = true := hal
  subst hal'
  cases infl with
  | nil =>
      simp [run, step1, RequestCollection, NgxBaseFetch.IncrementRefCount,
        applyDecref, NgxBaseFetch.DecrefAndDeleteIfUnreferenced]
  | cons e rest =>
      simp [run, step1, RequestCollection, NgxBaseFetch.IncrementRefCount,
        applyDecref, NgxBaseFetch.DecrefAndDeleteIfUnreferenced,
        List.length_append]

/-- C1: along every contract-valid interleaving of producer writes with
consumer collection calls and the other bridge operations, the bytes returned
across all CollectAccumulatedWrites calls, followed by the bytes still
buffered, are exactly the concatenation of all bytes passed to HandleWrite, in
order, with no byte duplicated or dropped; hence once the buffer has been
fully drained, everything returned equals w1 ++ ... ++ wn. -/
theorem C1_writes_collected_in_order (pch : PreserveCachingHeaders)
    (t : List Act) (h : validTrace (initSys pch) t = true) :
    (run (initSys pch) t).collectedAll ++ (run (initSys pch) t).bf.buffer_
      = traceWrites t
    ∧ ((run (initSys pch) t).bf.buffer_ = [] →
        (run (initSys pch) t).collectedAll = traceWrites t) := by
  obtain ⟨-, -, -, -, -, -, -, h8⟩ := Inv_run_initSys pch t h
  have hw : (run (initSys pch) t).written = traceWrites t := by
    simpa [initSys] using run_written (initSys pch) t h
  constructor
  · rw [h8, hw]
  · intro hempty
    have h8' := h8
    rw [hempty, List.append_nil] at h8'
    rw [h8', hw]

/-- Witness for C1 at the concrete trace of Scenario A followed by event
delivery and detach. -/
theorem C1_writes_collected_in_order_witness :
    validTrace (initSys PreserveCachingHeaders.kDontPreserveHeaders)
      [Act.write [1, 2], Act.flush, Act.collect true, Act.write [3],
        Act.done true, Act.collect true, Act.deliver, Act.deliver, Act.detach]
      = true
    ∧ ((run (initSys PreserveCachingHeaders.kDontPreserveHeaders)
          [Act.write [1, 2], Act.flush, Act.collect true, Act.write [3],
            Act.done true, Act.collect true, Act.deliver, Act.deliver,
            Act.detach]).collectedAll
        ++ (run (initSys PreserveCachingHeaders.kDontPreserveHeaders)
          [Act.write [1, 2], Act.flush, Act.collect true, Act.write [3],
            Act.done true, Act.collect true, Act.deliver, Act.deliver,
            Act.detach]).bf.buffer_
        = traceWrites
          [Act.write [1, 2], Act.flush, Act.collect true, Act.write [3],
            Act.done true, Act.collect true, Act.deliver, Act.deliver,
            Act.detach]
      ∧ ((run (initSys PreserveCachingHeaders.kDontPreserveHeaders)
            [Act.write [1, 2], Act.flush, Act.collect true, Act.write [3],
              Act.done true, Act.collect true, Act.deliver, Act.deliver,
              Act.detach]).bf.buffer_ = [] →
          (run (initSys PreserveCachingHeaders.kDontPreserveHeaders)
            [Act.write [1, 2], Act.flush, Act.collect true, Act.write [3],
              Act.done true, Act.collect true, Act.deliver, Act.deliver,
              Act.detach]).collectedAll
            = traceWrites
              [Act.write [1, 2], Act.flush, Act.collect true, Act.write [3],
                Act.done true, Act.collect true, Act.deliver, Act.deliver,
                Act.detach])) :=
  ⟨by decide, C1_writes_collected_in_order _ _ (by decide)⟩

/-- C3: the reference count starts at 2 and never goes negative; self-deletion
happens at most once, exactly when aliveness is lost, in a state where the
count is zero, the producer has released (done_called_), the consumer has
released (detached_) and no notification event is in flight; and while alive
the count is exactly the producer credit plus the consumer credit plus one
credit per in-flight event, whatever the order of releases. -/
theorem C3_refcount_lifecycle (pch : PreserveCachingHeaders) (t : List Act)
    (h : validTrace (initSys pch) t = true) :
    (initSys pch).bf.references_ = 2
    ∧ 0 ≤ (run (initSys pch) t).bf.references_
    ∧ (run (initSys pch) t).deletions ≤ 1
    ∧ ((run (initSys pch) t).alive = true ↔ (run (initSys pch) t).deletions = 0)
    ∧ ((run (initSys pch) t).alive = false →
        (run (initSys pch) t).bf.references_ = 0
        ∧ (run (initSys pch) t).bf.done_called_ = true
        ∧ (run (initSys pch) t).bf.detached_ = true
        ∧ (run (initSys pch) t).inflight.length = 0)
    ∧ ((run (initSys pch) t).alive = true →
        (run (initSys pch) t).bf.references_
          = prodCredit (run (initSys pch) t).bf
            + consCredit (run (initSys pch) t).bf
            + (run (initSys pch) t).inflight.length) := by
  obtain ⟨h1, h2, h3, h4, h5, -, -, -⟩ := Inv_run_initSys pch t h
  refine ⟨rfl, ?_, h5, h4, h3, h1⟩
  cases hx : (run (initSys pch) t).alive
  · have := (h3 hx).1
    omega
  · have := h2 hx
    omega

/-- Witness for C3 at a trace where the producer finishes first and the
consumer detaches last. -/
theorem C3_refcount_lifecycle_witness :
    validTrace (initSys PreserveCachingHeaders.kPreserveAllCachingHeaders)
      [Act.write [7], Act.done true, Act.collect true, Act.deliver, Act.detach]
      = true
    ∧ ((initSys PreserveCachingHeaders.kPreserveAllCachingHeaders).bf.references_
        = 2
      ∧ 0 ≤ (run (initSys PreserveCachingHeaders.kPreserveAllCachingHeaders)
          [Act.write [7], Act.done true, Act.collect true, Act.deliver,
            Act.detach]).bf.references_
      ∧ (run (initSys PreserveCachingHeaders.kPreserveAllCachingHeaders)
          [Act.write [7], Act.done true, Act.collect true, Act.deliver,
            Act.detach]).deletions ≤ 1
      ∧ ((run (initSys PreserveCachingHeaders.kPreserveAllCachingHeaders)
          [Act.write [7], Act.done true, Act.collect true, Act.deliver,
            Act.detach]).alive = true
        ↔ (run (initSys PreserveCachingHeaders.kPreserveAllCachingHeaders)
          [Act.write [7], Act.done true, Act.collect true, Act.deliver,
            Act.detach]).deletions = 0)
      ∧ ((run (initSys PreserveCachingHeaders.kPreserveAllCachingHeaders)
          [Act.write [7], Act.done true, Act.collect true, Act.deliver,
            Act.detach]).alive = false →
          (run (initSys PreserveCachingHeaders.kPreserveAllCachingHeaders)
            [Act.write [7], Act.done true, Act.collect true, Act.deliver,
              Act.detach]).bf.references_ = 0
          ∧ (run (initSys PreserveCachingHeaders.kPreserveAllCachingHeaders)
            [Act.write [7], Act.done true, Act.collect true, Act.deliver,
              Act.detach]).bf.done_called_ = true
          ∧ (run (initSys PreserveCachingHeaders.kPreserveAllCachingHeaders)
            [Act.write [7], Act.done true, Act.collect true, Act.deliver,
              Act.detach]).bf.detached_ = true
          ∧ (run (initSys PreserveCachingHeaders.kPreserveAllCachingHeaders)
            [Act.write [7], Act.done true, Act.collect true, Act.deliver,
              Act.detach]).inflight.length = 0)
      ∧ ((run (initSys PreserveCachingHeaders.kPreserveAllCachingHeaders)
          [Act.write [7], Act.done true, Act.collect true, Act.deliver,
            Act.detach]).alive = true →
          (run (initSys PreserveCachingHeaders.kPreserveAllCachingHeaders)
            [Act.write [7], Act.done true, Act.collect true, Act.deliver,
              Act.detach]).bf.references_
            = prodCredit (run (initSys PreserveCachingHeaders.kPreserveAllCachingHeaders)
                [Act.write [7], Act.done true, Act.collect true, Act.deliver,
                  Act.detach]).bf
              + consCredit (run (initSys PreserveCachingHeaders.kPreserveAllCachingHeaders)
                [Act.write [7], Act.done true, Act.collect true, Act.deliver,
                  Act.detach]).bf
              + (run (initSys PreserveCachingHeaders.kPreserveAllCachingHeaders)
                [Act.write [7], Act.done true, Act.collect true, Act.deliver,
                  Act.detach]).inflight.length)) :=
  ⟨by decide, C3_refcount_lifecycle _ _ (by decide)⟩

/-- C5: if the buffer is empty and done_called_ is false, a
CollectAccumulatedWrites call is an idle no-op: it returns no bytes, no final
marker, the non-error status NGX_AGAIN, and the entire object state (buffer_,
done_called_, last_buf_sent_, references_, detached_, and both configuration
fields) is unchanged; a second consecutive call returns no new data either. -/
theorem C5_idle_collect_noop (f : NgxBaseFetch) (h1 : f.buffer_ = [])
    (h2 : f.done_called_ = false) :
    f.CollectAccumulatedWrites true = (f, [], false, NgxStatus.NGX_AGAIN)
    ∧ (f.CollectAccumulatedWrites true).1.CollectAccumulatedWrites true
        = (f, [], false, NgxStatus.NGX_AGAIN) := by
  rcases f with ⟨buf, dc, lbs, refs, ipro, pch, det⟩
  have hb : buf = [] := h1
  have hd : dc = false := h2
  subst hb hd
  simp [NgxBaseFetch.CollectAccumulatedWrites, NgxBaseFetch.CopyBufferToNginx]

/-- Witness for C5 on a freshly constructed fetch. -/
theorem C5_idle_collect_noop_witness :
    (NgxBaseFetch.construct PreserveCachingHeaders.kDontPreserveHeaders).buffer_
        = []
    ∧ (NgxBaseFetch.construct
        PreserveCachingHeaders.kDontPreserveHeaders).done_called_ = false
    ∧ ((NgxBaseFetch.construct
          PreserveCachingHeaders.kDontPreserveHeaders).CollectAccumulatedWrites
            true
        = (NgxBaseFetch.construct PreserveCachingHeaders.kDontPreserveHeaders,
            [], false, NgxStatus.NGX_AGAIN)
      ∧ ((NgxBaseFetch.construct
          PreserveCachingHeaders.kDontPreserveHeaders).CollectAccumulatedWrites
            true).1.CollectAccumulatedWrites true
        = (NgxBaseFetch.construct PreserveCachingHeaders.kDontPreserveHeaders,
            [], false, NgxStatus.NGX_AGAIN)) :=
  ⟨by decide, by decide,
    C5_idle_collect_noop _ (by decide) (by decide)⟩

/-- C6: if nginx buffer allocation fails while CollectAccumulatedWrites builds
the output chain, the call returns NGX_ERROR, emits no bytes and no final
marker, and the object state is completely unchanged (no partial mutation of
buffer_ or any flag); the status is simply returned to the immediate caller. -/
theorem C6_alloc_failure_error_state_unchanged (f : NgxBaseFetch) :
    f.CollectAccumulatedWrites false = (f, [], false, NgxStatus.NGX_ERROR) :=
  rfl

/-- C7 as stated is false: set_ipro_lookup (public, header line 93) changes
ipro_lookup_ after construction. -/
theorem C7_public_setter_counterexample :
    ((NgxBaseFetch.construct
        PreserveCachingHeaders.kDontPreserveHeaders).set_ipro_lookup
          true).ipro_lookup_
      ≠ (NgxBaseFetch.construct
          PreserveCachingHeaders.kDontPreserveHeaders).ipro_lookup_ := by
  decide

/-- C7 amended: preserve_caching_headers_ is set at construction and no
operation changes it, set_ipro_lookup included; ipro_lookup_ is left unchanged
by every bridge operation except the public setter set_ipro_lookup, which
overwrites it with its argument. -/
theorem C7_config_frame_amended (s : Sys) (a : Act) (f : NgxBaseFetch)
    (x : Bool) :
    (step1 s a).bf.preserve_caching_headers_ = s.bf.preserve_caching_headers_
    ∧ (step1 s a).bf.ipro_lookup_ = s.bf.ipro_lookup_
    ∧ (f.set_ipro_lookup x).preserve_caching_headers_
        = f.preserve_caching_headers_
    ∧ (f.set_ipro_lookup x).ipro_lookup_ = x := by
  refine ⟨(step1_config_frame s a).1, (step1_config_frame s a).2, ?_, ?_⟩ <;>
    simp [NgxBaseFetch.set_ipro_lookup]

/-- C10: Detach sets detached_ to true and decrements references_ by one,
leaving buffer_, done_called_, last_buf_sent_, ipro_lookup_ and
preserve_caching_headers_ unchanged; it deletes exactly when the decremented
count is zero, and since detached_ is assigned before the decrement, the
state at any such self-deletion already has detached_ true. -/
theorem C10_detach_frame (f : NgxBaseFetch) :
    (f.Detach).1.detached_ = true
    ∧ (f.Detach).1.references_ = f.references_ - 1
    ∧ (f.Detach).2 = (f.references_ - 1 == 0)
    ∧ (f.Detach).1.buffer_ = f.buffer_
    ∧ (f.Detach).1.done_called_ = f.done_called_
    ∧ (f.Detach).1.last_buf_sent_ = f.last_buf_sent_
    ∧ (f.Detach).1.ipro_lookup_ = f.ipro_lookup_
    ∧ (f.Detach).1.preserve_caching_headers_ = f.preserve_caching_headers_ := by
  rcases f with ⟨buf, dc, lbs, refs, ipro, pch, det⟩
  simp [NgxBaseFetch.Detach, NgxBaseFetch.DecrementRefCount,
    NgxBaseFetch.DecrefAndDeleteIfUnreferenced]

/-- C2: in every contract-valid execution at most one CollectAccumulatedWrites
call reports its output final; a final report happened exactly when
last_buf_sent_ is set, which requires done_called_; last_buf_sent_ is never
reset along any extension of the trace; and once done_called_ holds, the next
successful collection call brings the number of final reports to exactly
one. -/
theorem C2_final_reported_exactly_once (pch : PreserveCachingHeaders)
    (t1 t2 : List Act)
    (h : validTrace (initSys pch) (t1 ++ t2) = true) :
    (run (initSys pch) (t1 ++ t2)).finalCount ≤ 1
    ∧ ((run (initSys pch) (t1 ++ t2)).finalCount = 1
        ↔ (run (initSys pch) (t1 ++ t2)).bf.last_buf_sent_ = true)
    ∧ ((run (initSys pch) (t1 ++ t2)).bf.last_buf_sent_ = true
        → (run (initSys pch) (t1 ++ t2)).bf.done_called_ = true)
    ∧ ((run (initSys pch) t1).bf.last_buf_sent_ = true
        → (run (initSys pch) (t1 ++ t2)).bf.last_buf_sent_ = true)
    ∧ ((run (initSys pch) t1).bf.done_called_ = true
        → validStep (run (initSys pch) t1) (Act.collect true) = true
        → (run (initSys pch) (t1 ++ [Act.collect true])).finalCount = 1) := by
  rw [validTrace_append, Bool.and_eq_true] at h
  obtain ⟨ht1, ht2⟩ := h
  have hInv1 := Inv_run_initSys pch t1 ht1
  have hInv12 := Inv_run (run (initSys pch) t1) t2 hInv1 ht2
  obtain ⟨-, -, -, -, -, h6, h7, -⟩ := hInv12
  refine ⟨?_, ?_, ?_, ?_, ?_⟩
  · rw [run_append, h7]
    split_ifs <;> omega
  · rw [run_append, h7]
    cases hx : (run (run (initSys pch) t1) t2).bf.last_buf_sent_ <;> simp [hx]
  · rw [run_append]
    exact h6
  · rw [run_append]
    exact run_lastBufSent_mono (run (initSys pch) t1) t2
  · intro hdone hv
    rw [run_append]
    exact collect_after_done_final (run (initSys pch) t1) hInv1 hdone hv

/-- Witness for C2: Scenario A prefix ending in HandleDone, then the final
drain, then teardown. -/
theorem C2_final_reported_exactly_once_witness :
    validTrace (initSys PreserveCachingHeaders.kPreserveOnlyCacheControl)
      ([Act.write [9], Act.done true] ++ [Act.collect true, Act.deliver,
        Act.detach]) = true
    ∧ ((run (initSys PreserveCachingHeaders.kPreserveOnlyCacheControl)
          ([Act.write [9], Act.done true] ++ [Act.collect true, Act.deliver,
            Act.detach])).finalCount ≤ 1
      ∧ ((run (initSys PreserveCachingHeaders.kPreserveOnlyCacheControl)
          ([Act.write [9], Act.done true] ++ [Act.collect true, Act.deliver,
            Act.detach])).finalCount = 1
        ↔ (run (initSys PreserveCachingHeaders.kPreserveOnlyCacheControl)
          ([Act.write [9], Act.done true] ++ [Act.collect true, Act.deliver,
            Act.detach])).bf.last_buf_sent_ = true)
      ∧ ((run (initSys PreserveCachingHeaders.kPreserveOnlyCacheControl)
          ([Act.write [9], Act.done true] ++ [Act.collect true, Act.deliver,
            Act.detach])).bf.last_buf_sent_ = true
        → (run (initSys PreserveCachingHeaders.kPreserveOnlyCacheControl)
          ([Act.write [9], Act.done true] ++ [Act.collect true, Act.deliver,
            Act.detach])).bf.done_called_ = true)
      ∧ ((run (initSys PreserveCachingHeaders.kPreserveOnlyCacheControl)
          [Act.write [9], Act.done true]).bf.last_buf_sent_ = true
        → (run (initSys PreserveCachingHeaders.kPreserveOnlyCacheControl)
          ([Act.write [9], Act.done true] ++ [Act.collect true, Act.deliver,
            Act.detach])).bf.last_buf_sent_ = true)
      ∧ ((run (initSys PreserveCachingHeaders.kPreserveOnlyCacheControl)
          [Act.write [9], Act.done true]).bf.done_called_ = true
        → validStep (run (initSys PreserveCachingHeaders.kPreserveOnlyCacheControl)
            [Act.write [9], Act.done true]) (Act.collect true) = true
        → (run (initSys PreserveCachingHeaders.kPreserveOnlyCacheControl)
            ([Act.write [9], Act.done true] ++ [Act.collect true])).finalCount
              = 1)) :=
  ⟨by decide, C2_final_reported_exactly_once _ _ _ (by decide)⟩

/-- C4: in any reachable live state, RequestCollection (as performed by
HandleFlush) takes exactly one reference-count credit while putting exactly one
event in flight, and the delivery of an event returns exactly one credit while
taking one event out of flight, so over an enqueue/delivery pair the reference
count and the in-flight count are unchanged even though the delivery itself
touches no payload. -/
theorem C4_request_collection_credit_balance (pch : PreserveCachingHeaders)
    (t : List Act) (h : validTrace (initSys pch) t = true)
    (hal : (run (initSys pch) t).alive = true) :
    (step1 (run (initSys pch) t) Act.flush).bf.references_
        = (run (initSys pch) t).bf.references_ + 1
    ∧ (step1 (run (initSys pch) t) Act.flush).inflight.length
        = (run (initSys pch) t).inflight.length + 1
    ∧ (run (run (initSys pch) t) [Act.flush, Act.deliver]).bf.references_
        = (run (initSys pch) t).bf.references_
    ∧ (run (run (initSys pch) t) [Act.flush, Act.deliver]).inflight.length
        = (run (initSys pch) t).inflight.length :=
  flush_deliver_net_zero (run (initSys pch) t) hal

/-- Witness for C4 right after construction. -/
theorem C4_request_collection_credit_balance_witness :
    validTrace (initSys PreserveCachingHeaders.kDontPreserveHeaders) [] = true
    ∧ (run (initSys PreserveCachingHeaders.kDontPreserveHeaders) []).alive
        = true
    ∧ ((step1 (run (initSys PreserveCachingHeaders.kDontPreserveHeaders) [])
          Act.flush).bf.references_
        = (run (initSys PreserveCachingHeaders.kDontPreserveHeaders)
            []).bf.references_ + 1
      ∧ (step1 (run (initSys PreserveCachingHeaders.kDontPreserveHeaders) [])
          Act.flush).inflight.length
        = (run (initSys PreserveCachingHeaders.kDontPreserveHeaders)
            []).inflight.length + 1
      ∧ (run (run (initSys PreserveCachingHeaders.kDontPreserveHeaders) [])
          [Act.flush, Act.deliver]).bf.references_
        = (run (initSys PreserveCachingHeaders.kDontPreserveHeaders)
            []).bf.references_
      ∧ (run (run (initSys PreserveCachingHeaders.kDontPreserveHeaders) [])
          [Act.flush, Act.deliver]).inflight.length
        = (run (initSys PreserveCachingHeaders.kDontPreserveHeaders)
            []).inflight.length) :=
  ⟨by decide, by decide,
    C4_request_collection_credit_balance _ [] (by decide) (by decide)⟩

/-- C8: from any reachable state in which the consumer has detached but the
producer has not yet called HandleDone, the producer operations HandleWrite,
HandleFlush and HandleDone are still contract-valid steps (no fault); running
HandleWrite then HandleDone changes nothing the consumer can observe (the
collected output log and the count of final reports are untouched); and once
the producer release lands and every in-flight event credit is consumed, the
bridge self-destructs exactly once. -/
theorem C8_detached_producer_ops_harmless (pch : PreserveCachingHeaders)
    (t : List Act) (d : List Nat)
    (h : validTrace (initSys pch) t = true)
    (hdet : (run (initSys pch) t).bf.detached_ = true)
    (hdone : (run (initSys pch) t).bf.done_called_ = false) :
    validStep (run (initSys pch) t) (Act.write d) = true
    ∧ validStep (run (initSys pch) t) Act.flush = true
    ∧ validStep (run (initSys pch) t) (Act.done true) = true
    ∧ (run (run (initSys pch) t) [Act.write d, Act.done true]).collectedAll
        = (run (initSys pch) t).collectedAll
    ∧ (run (run (initSys pch) t) [Act.write d, Act.done true]).finalCount
        = (run (initSys pch) t).finalCount
    ∧ (run (run (initSys pch) t) ([Act.write d, Act.done true]
        ++ List.replicate ((run (initSys pch) t).inflight.length + 1)
          Act.deliver)).alive = false
    ∧ (run (run (initSys pch) t) ([Act.write d, Act.done true]
        ++ List.replicate ((run (initSys pch) t).inflight.length + 1)
          Act.deliver)).deletions = 1
    ∧ (run (run (initSys pch) t) ([Act.write d, Act.done true]
        ++ List.replicate ((run (initSys pch) t).inflight.length + 1)
          Act.deliver)).collectedAll = (run (initSys pch) t).collectedAll := by
  have hInv := Inv_run_initSys pch t h
  obtain ⟨-, -, hI3, hI4, -, -, -, -⟩ := hInv
  have hal : (run (initSys pch) t).alive = true := by
    cases hx : (run (initSys pch) t).alive
    · exact absurd (hI3 hx).2.1 (by simp [hdone])
    · rfl
  have hvw : validStep (run (initSys pch) t) (Act.write d) = true := by
    simp [validStep, hal, hdone]
  have hvf : validStep (run (initSys pch) t) Act.flush = true := by
    simp [validStep, hal, hdone]
  have hw := write_step_char (run (initSys pch) t) hal d
  have hInv1 := Inv_step (run (initSys pch) t) (Act.write d)
    (Inv_run_initSys pch t h) hvw
  have hdc1 : (step1 (run (initSys pch) t) (Act.write d)).bf.done_called_
      = false := by
    rw [hw.2.1]; exact hdone
  have hdet1 : (step1 (run (initSys pch) t) (Act.write d)).bf.detached_
      = true := by
    rw [hw.2.2.1]; exact hdet
  have hvd : validStep (step1 (run (initSys pch) t) (Act.write d))
      (Act.done true) = true := by
    simp [validStep, hw.1, hdc1]
  have hd := done_step_char (step1 (run (initSys pch) t) (Act.write d)) hInv1
    hw.1 hdc1 true
  have hInv2 := Inv_step (step1 (run (initSys pch) t) (Act.write d))
    (Act.done true) hInv1 hvd
  have hrun2 : run (run (initSys pch) t) [Act.write d, Act.done true]
      = step1 (step1 (run (initSys pch) t) (Act.write d)) (Act.done true) :=
    rfl
  have hdet2 : (step1 (step1 (run (initSys pch) t) (Act.write d))
      (Act.done true)).bf.detached_ = true := by
    rw [hd.2.2.1]; exact hdet1
  have hlen2 : (step1 (step1 (run (initSys pch) t) (Act.write d))
      (Act.done true)).inflight.length
      = (run (initSys pch) t).inflight.length + 1 := by
    rw [hd.2.2.2.1, hw.2.2.2.1]
  have hcol2 : (step1 (step1 (run (initSys pch) t) (Act.write d))
      (Act.done true)).collectedAll = (run (initSys pch) t).collectedAll := by
    rw [hd.2.2.2.2.1, hw.2.2.2.2.1]
  have hfc2 : (step1 (step1 (run (initSys pch) t) (Act.write d))
      (Act.done true)).finalCount = (run (initSys pch) t).finalCount := by
    rw [hd.2.2.2.2.2.1, hw.2.2.2.2.2.1]
  have hdel2 : (step1 (step1 (run (initSys pch) t) (Act.write d))
      (Act.done true)).deletions = 0 := by
    rw [hd.2.2.2.2.2.2, hw.2.2.2.2.2.2]
    exact hI4.mp hal
  have hdrain := drain_deliver ((run (initSys pch) t).inflight.length)
    (step1 (step1 (run (initSys pch) t) (Act.write d)) (Act.done true))
    hInv2 hd.1 hd.2.1 hdet2 hlen2
  refine ⟨hvw, hvf, ?_, ?_, ?_, ?_, ?_, ?_⟩
  · simp [validStep, hal, hdone]
  · rw [hrun2]; exact hcol2
  · rw [hrun2]; exact hfc2
  · rw [run_append, hrun2]; exact hdrain.1
  · rw [run_append, hrun2, hdrain.2.1, hdel2]
  · rw [run_append, hrun2, hdrain.2.2.1, hcol2]

/-- Witness for C8: Scenario B, the consumer detaches first, with one flush
event still in flight. -/
theorem C8_detached_producer_ops_harmless_witness :
    validTrace (initSys PreserveCachingHeaders.kDontPreserveHeaders)
      [Act.flush, Act.detach] = true
    ∧ (run (initSys PreserveCachingHeaders.kDontPreserveHeaders)
        [Act.flush, Act.detach]).bf.detached_ = true
    ∧ (run (initSys PreserveCachingHeaders.kDontPreserveHeaders)
        [Act.flush, Act.detach]).bf.done_called_ = false
    ∧ (validStep (run (initSys PreserveCachingHeaders.kDontPreserveHeaders)
          [Act.flush, Act.detach]) (Act.write [120]) = true
      ∧ validStep (run (initSys PreserveCachingHeaders.kDontPreserveHeaders)
          [Act.flush, Act.detach]) Act.flush = true
      ∧ validStep (run (initSys PreserveCachingHeaders.kDontPreserveHeaders)
          [Act.flush, Act.detach]) (Act.done true) = true
      ∧ (run (run (initSys PreserveCachingHeaders.kDontPreserveHeaders)
          [Act.flush, Act.detach]) [Act.write [120], Act.done true]).collectedAll
        = (run (initSys PreserveCachingHeaders.kDontPreserveHeaders)
            [Act.flush, Act.detach]).collectedAll
      ∧ (run (run (initSys PreserveCachingHeaders.kDontPreserveHeaders)
          [Act.flush, Act.detach]) [Act.write [120], Act.done true]).finalCount
        = (run (initSys PreserveCachingHeaders.kDontPreserveHeaders)
            [Act.flush, Act.detach]).finalCount
      ∧ (run (run (initSys PreserveCachingHeaders.kDontPreserveHeaders)
          [Act.flush, Act.detach]) ([Act.write [120], Act.done true]
          ++ List.replicate ((run (initSys PreserveCachingHeaders.kDontPreserveHeaders)
              [Act.flush, Act.detach]).inflight.length + 1)
            Act.deliver)).alive = false
      ∧ (run (run (initSys PreserveCachingHeaders.kDontPreserveHeaders)
          [Act.flush, Act.detach]) ([Act.write [120], Act.done true]
          ++ List.replicate ((run (initSys PreserveCachingHeaders.kDontPreserveHeaders)
              [Act.flush, Act.detach]).inflight.length + 1)
            Act.deliver)).deletions = 1
      ∧ (run (run (initSys PreserveCachingHeaders.kDontPreserveHeaders)
          [Act.flush, Act.detach]) ([Act.write [120], Act.done true]
          ++ List.replicate ((run (initSys PreserveCachingHeaders.kDontPreserveHeaders)
              [Act.flush, Act.detach]).inflight.length + 1)
            Act.deliver)).collectedAll
        = (run (initSys PreserveCachingHeaders.kDontPreserveHeaders)
            [Act.flush, Act.detach]).collectedAll) :=
  ⟨by decide, by decide, by decide,
    C8_detached_producer_ops_harmless _ _ [120] (by decide) (by decide)
      (by decide)⟩

end NgxPagespeed
